import Mathlib

/-!
Verification development for the rk3399 chipset power-sequencing module
(`power/rk3399.c`).  The module is embedded shallowly:

* `power_handle_state` and its helpers become pure Lean functions;
* the external collaborators (power-signal sampling, blocking signal
  waits, the charger gate, the power button, task wake, hooks, deferred
  scheduling) become an explicit environment `Env` of oracles, sampled at
  an explicit millisecond clock that advances on every `msleep`;
* the two file-scope mutable flags (`forcing_shutdown`,
  `sys_reset_asserted`) become an explicit machine context `Ctx`;
* side effects (GPIO writes, hook notifications, deferred-action calls,
  sleep-mask toggles) are collected in an ordered trace.

The build-time `CONFIG_CHIPSET_POWER_SEQ_VERSION` preprocessor choice is
a `Nat` parameter `v`; every `#if` on it becomes an `if` on `v`, so the
three real configurations are `v = 0`, `v = 1`, `v = 2` and any other
value behaves like the corresponding `#else` arms, exactly as the
preprocessor conditions `== 2` / `== 0` would.
-/

namespace RK3399

/-- Mirror of `enum power_state`: steady states and one transient per edge. -/
inductive PowerState where
  | POWER_G3
  | POWER_S5
  | POWER_S3
  | POWER_S0
  | POWER_G3S5
  | POWER_S5S3
  | POWER_S3S0
  | POWER_S0S3
  | POWER_S3S5
  | POWER_S5G3
deriving DecidableEq, Repr

/-- The GPIO signals named by the power-sequencing tables (all versions). -/
inductive GpioSignal where
  | PP900_S3_EN
  | SYS_RST_L
  | PP3300_S3_EN
  | PP1800_S3_EN
  | PP1250_S3_EN
  | PP900_S0_EN
  | PP1800_USB_EN
  | PP3300_S0_EN
  | AP_CORE_EN
  | PP1800_S0_EN
  | PPVAR_LOGIC_EN
  | PP900_AP_EN
  | PP900_PCIE_EN
  | PP900_PMU_EN
  | PP900_PLL_EN
  | PP900_USB_EN
  | PP1800_PMU_EN_L
  | LPDDR_PWR_EN
  | PP1800_USB_EN_L
  | PP3300_USB_EN_L
  | PP5000_EN
  | PP3300_TRACKPAD_EN_L
  | PP1800_LID_EN_L
  | PP1800_SIXAXIS_EN_L
  | PP1800_SENSOR_EN_L
  | PPVAR_CLOGIC_EN
  | PP900_DDRPLL_EN
  | PP1800_AP_AVDD_EN_L
  | PP1800_S0_EN_L
  | PP3300_S0_EN_L
deriving DecidableEq, Repr

/-- The lifecycle notifications the module emits via `hook_notify`. -/
inductive HookType where
  | chipsetStartup
  | chipsetResume
  | chipsetSuspend
  | chipsetShutdown
deriving DecidableEq, Repr

/-- Observable side effects, collected in program order. -/
inductive Effect where
  | gpioSet (g : GpioSignal) (level : Bool)
  | hookNotify (h : HookType)
  /-- Models `hook_call_deferred(&force_shutdown_data, delay)`; a negative delay
  cancels the pending deferred call. -/
  | hookCallDeferred (delay : Int)
  | taskWake
  | disableSleep
  | enableSleep
deriving DecidableEq, Repr

/-- Mirror of `struct power_seq_op`: one GPIO operation of a sequencing table. -/
structure power_seq_op where
  signal : GpioSignal
  level : Bool
  /-- milliseconds to delay after setting `signal` to `level` -/
  delay : Nat
deriving DecidableEq, Repr

/-- The module's two file-scope mutable flags. -/
structure Ctx where
  forcing_shutdown : Bool
  sys_reset_asserted : Bool
deriving DecidableEq, Repr

/-- External collaborators, as oracles.  `signals u` is the value
`power_get_signals()` would return `u` milliseconds after entry to the
current invocation; `wait m u` is the outcome of a blocking signal wait
on mask `m` issued at time `u`: `some e` means the mask asserted after
`e` ms, `none` means it never asserted within the primitive's own bound.
`preventPowerOn n` is the result of the `n`-th call (0-based) to
`charge_prevent_power_on(0)` in the charger-retry loop. -/
structure Env where
  signals : Nat → Nat
  wait : Nat → Nat → Option Nat
  preventPowerOn : Nat → Bool
  wantShutdown : Bool
  powerButtonPressed : Bool

/-- Boot-time queries used by `power_chipset_init`. -/
structure BootEnv where
  jumped : Bool
  ap_off : Bool

/-- Result of one `power_handle_state` invocation: the returned state,
the updated flags, the clock after all sleeps/waits, and the effect
trace in program order. -/
structure HR where
  next : PowerState
  ctx : Ctx
  time : Nat
  trace : List Effect
deriving DecidableEq, Repr

/-! ## Signal masks

The concrete bit indices of `enum power_signal` are board-defined and
not part of this module; only distinctness of the bits is used, so
representative indices are fixed here. -/

def POWER_SIGNAL_MASK (n : Nat) : Nat := 2 ^ n

def PP1250_S3_PWR_GOOD : Nat := 0
def PP900_S0_PWR_GOOD : Nat := 1
def PP5000_PWR_GOOD : Nat := 2
def SYS_PWR_GOOD : Nat := 3
def AP_PWR_GOOD : Nat := 4
def SUSPEND_DEASSERTED : Nat := 5

def IN_PGOOD_PP1250_S3 : Nat := POWER_SIGNAL_MASK PP1250_S3_PWR_GOOD
def IN_PGOOD_PP900_S0 : Nat := POWER_SIGNAL_MASK PP900_S0_PWR_GOOD
def IN_PGOOD_PP5000 : Nat := POWER_SIGNAL_MASK PP5000_PWR_GOOD
def IN_PGOOD_SYS : Nat := POWER_SIGNAL_MASK SYS_PWR_GOOD
def IN_PGOOD_AP : Nat := POWER_SIGNAL_MASK AP_PWR_GOOD
def IN_SUSPEND_DEASSERTED : Nat := POWER_SIGNAL_MASK SUSPEND_DEASSERTED

/-- Mask `IN_PGOOD_S3`: rails required for S3 (version-dependent). -/
def IN_PGOOD_S3 (v : Nat) : Nat :=
  if v = 2 then IN_PGOOD_PP1250_S3 else IN_PGOOD_PP5000

/-- Mask `IN_PGOOD_S0`: rails required for S0 (version-dependent). -/
def IN_PGOOD_S0 (v : Nat) : Nat :=
  if v = 2 then IN_PGOOD_S3 v ||| IN_PGOOD_PP900_S0 ||| IN_PGOOD_AP
  else IN_PGOOD_S3 v ||| IN_PGOOD_AP ||| IN_PGOOD_SYS

/-- Mask `IN_ALL_S0`: all inputs in the right state for S0. -/
def IN_ALL_S0 (v : Nat) : Nat := IN_PGOOD_S0 v ||| IN_SUSPEND_DEASSERTED

def CHARGER_INITIALIZED_DELAY_MS : Nat := 100
def CHARGER_INITIALIZED_TRIES : Nat := 40
def SLEEP_INTERVAL_MS : Nat := 5
/-- Constant `PGOOD_AP_DEBOUNCE_TIMEOUT` (100 * MSEC), in milliseconds. -/
def PGOOD_AP_DEBOUNCE_TIMEOUT_MS : Nat := 100

/-! ## Sequencing tables -/

/-- The power sequence for POWER_S5S3. -/
def s5s3_power_seq (v : Nat) : List power_seq_op :=
  if v = 2 then
    [⟨.PP900_S3_EN, true, 2⟩,
     ⟨.SYS_RST_L, true, 0⟩,
     ⟨.PP3300_S3_EN, true, 2⟩,
     ⟨.PP1800_S3_EN, true, 2⟩,
     ⟨.PP1250_S3_EN, true, 2⟩]
  else
    [⟨.PPVAR_LOGIC_EN, true, 0⟩,
     ⟨.PP900_AP_EN, true, 0⟩,
     ⟨.PP900_PCIE_EN, true, 2⟩] ++
    (if v = 0 then
      [⟨.PP900_PMU_EN, true, 0⟩,
       ⟨.PP900_PLL_EN, true, 0⟩]
     else []) ++
    [⟨.PP900_USB_EN, true, 2⟩,
     ⟨.SYS_RST_L, false, 0⟩,
     ⟨.PP1800_PMU_EN_L, false, 2⟩,
     ⟨.LPDDR_PWR_EN, true, 2⟩,
     ⟨.PP1800_USB_EN_L, false, 2⟩,
     ⟨.PP3300_USB_EN_L, false, 0⟩,
     ⟨.PP5000_EN, true, 0⟩,
     ⟨.PP3300_TRACKPAD_EN_L, false, 1⟩,
     ⟨.PP1800_LID_EN_L, false, 0⟩,
     ⟨.PP1800_SIXAXIS_EN_L, false, 2⟩,
     ⟨.PP1800_SENSOR_EN_L, false, 0⟩]

/-- The power sequence for POWER_S3S0. -/
def s3s0_power_seq (v : Nat) : List power_seq_op :=
  if v = 2 then
    [⟨.PP900_S0_EN, true, 2⟩,
     ⟨.PP1800_USB_EN, true, 2⟩,
     ⟨.PP3300_S0_EN, true, 2⟩,
     ⟨.AP_CORE_EN, true, 2⟩,
     ⟨.PP1800_S0_EN, true, 0⟩]
  else
    [⟨.PPVAR_CLOGIC_EN, true, 2⟩,
     ⟨.PP900_DDRPLL_EN, true, 2⟩,
     ⟨.PP1800_AP_AVDD_EN_L, false, 2⟩,
     ⟨.AP_CORE_EN, true, 2⟩,
     ⟨.PP1800_S0_EN_L, false, 2⟩,
     ⟨.PP3300_S0_EN_L, false, 0⟩]

/-- The power sequence for POWER_S0S3. -/
def s0s3_power_seq (v : Nat) : List power_seq_op :=
  if v = 2 then
    [⟨.PP1800_S0_EN, false, 1⟩,
     ⟨.AP_CORE_EN, false, 20⟩,
     ⟨.PP3300_S0_EN, false, 20⟩,
     ⟨.PP1800_USB_EN, false, 1⟩,
     ⟨.PP900_S0_EN, false, 1⟩]
  else
    [⟨.PP3300_S0_EN_L, true, 20⟩,
     ⟨.PP1800_S0_EN_L, true, 1⟩,
     ⟨.AP_CORE_EN, false, 20⟩,
     ⟨.PP1800_AP_AVDD_EN_L, true, 1⟩,
     ⟨.PP900_DDRPLL_EN, false, 1⟩,
     ⟨.PPVAR_CLOGIC_EN, false, 0⟩]

/-- The power sequence for POWER_S3S5. -/
def s3s5_power_seq (v : Nat) : List power_seq_op :=
  if v = 2 then
    [⟨.PP1250_S3_EN, false, 2⟩,
     ⟨.PP1800_S3_EN, false, 2⟩,
     ⟨.PP3300_S3_EN, false, 2⟩,
     ⟨.PP900_S3_EN, false, 0⟩]
  else
    [⟨.PP1800_SENSOR_EN_L, true, 0⟩,
     ⟨.PP1800_SIXAXIS_EN_L, true, 0⟩,
     ⟨.PP1800_LID_EN_L, true, 0⟩,
     ⟨.PP3300_TRACKPAD_EN_L, true, 0⟩,
     ⟨.PP5000_EN, false, 0⟩,
     ⟨.PP3300_USB_EN_L, true, 20⟩,
     ⟨.PP1800_USB_EN_L, true, 10⟩,
     ⟨.LPDDR_PWR_EN, false, 20⟩,
     ⟨.PP1800_PMU_EN_L, true, 2⟩] ++
    (if v = 0 then
      [⟨.PP900_PLL_EN, false, 0⟩,
       ⟨.PP900_PMU_EN, false, 0⟩]
     else []) ++
    [⟨.PP900_USB_EN, false, 6⟩,
     ⟨.PP900_PCIE_EN, false, 0⟩,
     ⟨.PP900_AP_EN, false, 0⟩,
     ⟨.PPVAR_LOGIC_EN, false, 0⟩]

/-! ## Primitives -/

/-- Predicate `power_has_signals(mask)`: all bits of `mask` set in the snapshot. -/
def power_has_signals (env : Env) (mask t : Nat) : Bool :=
  env.signals t &&& mask == mask

/-- Model of `power_wait_signals(mask)` issued at time `t`: on success the clock
advances by the observed latency; on failure (timeout inside the
primitive) the caller returns immediately, so the clock value in that
branch is never observed and is left at `t`. -/
def power_wait_signals (env : Env) (mask t : Nat) : Nat × Bool :=
  match env.wait mask t with
  | some e => (t + e, true)
  | none => (t, false)

/-- Model of `power_wait_signals_timeout(mask, timeout)` issued at time `t`. -/
def power_wait_signals_timeout (env : Env) (mask t timeoutMs : Nat) :
    Nat × Bool :=
  match env.wait mask t with
  | some e => if e ≤ timeoutMs then (t + e, true) else (t + timeoutMs, false)
  | none => (t + timeoutMs, false)

/-- One `do { msleep(MIN(sleep_remain, 5)); sleep_remain -= 5; if
(!forcing_shutdown && (signals & IN_SUSPEND_DEASSERTED)) return
POWER_S3S0; } while (sleep_remain > 0);` loop, with an explicit fuel
that makes the recursion structural; `remain + 1` fuel always suffices
because every iteration consumes at least 1 ms of `remain` (the loop
recurses only while `5 < remain`).  Returns the clock after the loop and
whether the suspend was aborted. -/
def msleep_check_go (env : Env) (fs : Bool) :
    Nat → Nat → Nat → Nat × Bool
  | 0, t, _ => (t, false)
  | fuel + 1, t, remain =>
    let t2 := t + min remain SLEEP_INTERVAL_MS
    if fs = false ∧ env.signals t2 &&& IN_SUSPEND_DEASSERTED ≠ 0 then
      (t2, true)
    else if SLEEP_INTERVAL_MS < remain then
      msleep_check_go env fs fuel t2 (remain - SLEEP_INTERVAL_MS)
    else
      (t2, false)

/-- Macro `MSLEEP_CHECK_ABORTED_SUSPEND(msec)` at time `t` with the current
`forcing_shutdown` value `fs`. -/
def MSLEEP_CHECK_ABORTED_SUSPEND (env : Env) (fs : Bool) (t msec : Nat) :
    Nat × Bool :=
  msleep_check_go env fs (msec + 1) t msec

/-- Model of `power_seq_run`: step through a table doing the GPIO operations;
`is_s0s3` is the pointer comparison `power_seq_ops == s0s3_power_seq`
(true exactly when the caller passes the suspend-entry table).  Returns
(clock, gpio-write trace, aborted). -/
def power_seq_run (env : Env) (fs : Bool) (is_s0s3 : Bool) :
    List power_seq_op → Nat → Nat × List Effect × Bool
  | [], t => (t, [], false)
  | op :: rest, t =>
    let w := Effect.gpioSet op.signal op.level
    if op.delay = 0 then
      let r := power_seq_run env fs is_s0s3 rest t
      (r.1, w :: r.2.1, r.2.2)
    else if is_s0s3 = true then
      let m := MSLEEP_CHECK_ABORTED_SUSPEND env fs t op.delay
      if m.2 = true then (m.1, [w], true)
      else
        let r := power_seq_run env fs is_s0s3 rest m.1
        (r.1, w :: r.2.1, r.2.2)
    else
      let r := power_seq_run env fs is_s0s3 rest (t + op.delay)
      (r.1, w :: r.2.1, r.2.2)

/-- The `while (charge_prevent_power_on(0) && tries++ <
CHARGER_INITIALIZED_TRIES) msleep(CHARGER_INITIALIZED_DELAY_MS);` loop,
fuel-indexed (the loop recurses only while `tries < 40`, so fuel 41 from
`tries = 0` always suffices).  Returns (clock, final value of `tries`).
Note the C post-increment: when the gate still prevents power-on at
`tries = 40`, `tries` becomes 41 and the loop exits without sleeping. -/
def charger_wait_go (env : Env) : Nat → Nat → Nat → Nat × Nat
  | 0, t, tries => (t, tries)
  | fuel + 1, t, tries =>
    if env.preventPowerOn tries = true then
      if tries < CHARGER_INITIALIZED_TRIES then
        charger_wait_go env fuel (t + CHARGER_INITIALIZED_DELAY_MS)
          (tries + 1)
      else (t, tries + 1)
    else (t, tries)

/-- Model of `chipset_force_shutdown()`: set the flag and wake the chipset task. -/
def chipset_force_shutdown (ctx : Ctx) : Ctx × List Effect :=
  ({ ctx with forcing_shutdown := true }, [Effect.taskWake])

/-- Model of `force_shutdown()` (the deferred callback body). -/
def force_shutdown (ctx : Ctx) : Ctx × List Effect :=
  ({ ctx with forcing_shutdown := true }, [Effect.taskWake])

/-! ## The state handler -/

/-- Model of `power_handle_state`, one invocation at clock `t`. -/
def power_handle_state (v : Nat) (env : Env) (state : PowerState)
    (ctx : Ctx) (t : Nat) : HR :=
  match state with
  | .POWER_G3 => ⟨.POWER_G3, ctx, t, []⟩
  | .POWER_S5 =>
    if ctx.forcing_shutdown = true then ⟨.POWER_S5G3, ctx, t, []⟩
    else ⟨.POWER_S5S3, ctx, t, []⟩
  | .POWER_S3 =>
    if power_has_signals env (IN_PGOOD_S3 v) t = false ∨
        ctx.forcing_shutdown = true then
      ⟨.POWER_S3S5, ctx, t, []⟩
    else if env.signals t &&& IN_SUSPEND_DEASSERTED ≠ 0 then
      ⟨.POWER_S3S0, ctx, t, []⟩
    else ⟨.POWER_S3, ctx, t, []⟩
  | .POWER_S0 =>
    if power_has_signals env (IN_PGOOD_S3 v) t = false ∨
        ctx.forcing_shutdown = true ∨
        env.signals t &&& IN_SUSPEND_DEASSERTED = 0 then
      ⟨.POWER_S0S3, ctx, t, []⟩
    else if v ≠ 2 then
      -- debounce IN_PGOOD_AP / PGOOD_SYS, then re-verify the world
      let w := power_wait_signals_timeout env (IN_PGOOD_AP ||| IN_PGOOD_SYS)
        t PGOOD_AP_DEBOUNCE_TIMEOUT_MS
      if w.2 = false then ⟨.POWER_S0S3, ctx, w.1, []⟩
      else if power_has_signals env (IN_PGOOD_S3 v) w.1 = false ∨
          ctx.forcing_shutdown = true ∨
          env.signals w.1 &&& IN_SUSPEND_DEASSERTED = 0 then
        ⟨.POWER_S0S3, ctx, w.1, []⟩
      else ⟨.POWER_S0, ctx, w.1, []⟩
    else ⟨.POWER_S0, ctx, t, []⟩
  | .POWER_G3S5 =>
    let ctx1 : Ctx := { ctx with forcing_shutdown := false }
    let c := charger_wait_go env (CHARGER_INITIALIZED_TRIES + 1) t 0
    if env.wantShutdown = true ∨ CHARGER_INITIALIZED_TRIES < c.2 then
      ⟨.POWER_G3, (chipset_force_shutdown ctx1).1, c.1,
        (chipset_force_shutdown ctx1).2⟩
    else ⟨.POWER_S5, ctx1, c.1, []⟩
  | .POWER_S5S3 =>
    let r := power_seq_run env ctx.forcing_shutdown false
      (s5s3_power_seq v) t
    let ctx1 : Ctx := { ctx with sys_reset_asserted := true }
    let w := power_wait_signals env (IN_PGOOD_S3 v) r.1
    if w.2 = false then
      ⟨.POWER_S3S5, (chipset_force_shutdown ctx1).1, w.1,
        r.2.1 ++ (chipset_force_shutdown ctx1).2⟩
    else
      ⟨.POWER_S3, ctx1, w.1, r.2.1 ++ [Effect.hookNotify .chipsetStartup]⟩
  | .POWER_S3S0 =>
    let r := power_seq_run env ctx.forcing_shutdown false
      (s3s0_power_seq v) t
    -- release SYS_RST if we came from S5
    let ctx1 : Ctx :=
      if ctx.sys_reset_asserted = true then
        { ctx with sys_reset_asserted := false }
      else ctx
    let t2 := if ctx.sys_reset_asserted = true then r.1 + 10 else r.1
    let tr2 :=
      if ctx.sys_reset_asserted = true then
        r.2.1 ++ [Effect.gpioSet .SYS_RST_L true]
      else r.2.1
    let w := power_wait_signals env (IN_PGOOD_S0 v) t2
    if w.2 = false then
      ⟨.POWER_S3S0, (chipset_force_shutdown ctx1).1, w.1,
        tr2 ++ (chipset_force_shutdown ctx1).2⟩
    else
      ⟨.POWER_S0, ctx1, w.1,
        tr2 ++ [Effect.hookNotify .chipsetResume, Effect.disableSleep]⟩
  | .POWER_S0S3 =>
    let m := MSLEEP_CHECK_ABORTED_SUSPEND env ctx.forcing_shutdown t 20
    if m.2 = true then
      ⟨.POWER_S3S0, ctx, m.1, [Effect.hookNotify .chipsetSuspend]⟩
    else
      let r := power_seq_run env ctx.forcing_shutdown true
        (s0s3_power_seq v) m.1
      if r.2.2 = true then
        ⟨.POWER_S3S0, ctx, r.1, Effect.hookNotify .chipsetSuspend :: r.2.1⟩
      else if env.powerButtonPressed = true then
        ⟨.POWER_S3, { ctx with forcing_shutdown := true }, r.1,
          Effect.hookNotify .chipsetSuspend :: r.2.1 ++
            [Effect.enableSleep, Effect.hookCallDeferred (-1)]⟩
      else
        ⟨.POWER_S3, ctx, r.1,
          Effect.hookNotify .chipsetSuspend :: r.2.1 ++ [Effect.enableSleep]⟩
  | .POWER_S3S5 =>
    let r := power_seq_run env ctx.forcing_shutdown false
      (s3s5_power_seq v) t
    ⟨.POWER_S5, ctx, r.1, Effect.hookNotify .chipsetShutdown :: r.2.1⟩
  | .POWER_S5G3 => ⟨.POWER_G3, ctx, t, []⟩

/-- Model of `power_chipset_init`: the static flags start cleared; the function
returns `POWER_S0` only on a warm jump with all S0 inputs present (the
auto-power-on `chipset_exit_hard_off` call is an external effect with no
bearing on the machine context). -/
def power_chipset_init (v : Nat) (env : Env) (b : BootEnv) :
    PowerState × Ctx :=
  let ctx0 : Ctx := ⟨false, false⟩
  if b.jumped = true ∧ env.signals 0 &&& IN_ALL_S0 v = IN_ALL_S0 v then
    (.POWER_S0, ctx0)
  else (.POWER_G3, ctx0)

/-! ## Driver for multi-step scenarios -/

/-- External events interleaved with handler invocations: `handleState`
is one loop iteration of the power task; `buttonForceShutdown` is the
deferred `force_shutdown` firing (long power-button press);
`powerOnToG3S5` is the common-code G3 exit (`chipset_exit_hard_off`)
driving the machine into G3→S5. -/
inductive DriveEvent where
  | handleState
  | buttonForceShutdown
  | powerOnToG3S5
deriving DecidableEq, Repr

def drive (v : Nat) (env : Env) :
    List DriveEvent → PowerState × Ctx × Nat → PowerState × Ctx × Nat
  | [], st => st
  | e :: rest, (s, ctx, t) =>
    match e with
    | .handleState =>
      let r := power_handle_state v env s ctx t
      drive v env rest (r.next, r.ctx, r.time)
    | .buttonForceShutdown => drive v env rest (s, (force_shutdown ctx).1, t)
    | .powerOnToG3S5 => drive v env rest (.POWER_G3S5, ctx, t)

/-! ## Derived notions used by the claims -/

/-- The (rail, level) write list a table prescribes, in literal order. -/
def seqWrites (ops : List power_seq_op) : List Effect :=
  ops.map fun op => Effect.gpioSet op.signal op.level

/-- Total of the per-step delays of a table. -/
def delaySum : List power_seq_op → Nat
  | [] => 0
  | op :: rest => op.delay + delaySum rest

/-- The transient states. -/
def isTransient : PowerState → Bool
  | .POWER_G3S5 => true
  | .POWER_S5S3 => true
  | .POWER_S3S0 => true
  | .POWER_S0S3 => true
  | .POWER_S3S5 => true
  | .POWER_S5G3 => true
  | _ => false

/-! ## Concrete environments for scenarios and witnesses -/

/-- A healthy platform: every power-good and the run signal are up, all
blocking waits succeed instantly, the charger is ready, the power button
is held. -/
def envOk : Env where
  signals := fun _ => 63
  wait := fun _ _ => some 0
  preventPowerOn := fun _ => false
  wantShutdown := false
  powerButtonPressed := true

/-- Run signal deasserted at entry to suspend, reasserting at 26 ms —
during the delay after the second step of the version-2 S0→S3 table. -/
def c2Env : Env where
  signals := fun u => if 26 ≤ u then IN_SUSPEND_DEASSERTED else 0
  wait := fun _ _ => some 0
  preventPowerOn := fun _ => false
  wantShutdown := false
  powerButtonPressed := false

/-- Run signal never reasserts, power button held: the S0→S3 teardown
runs to completion with a latched button press. -/
def c6Env : Env where
  signals := fun _ => 0
  wait := fun _ _ => some 0
  preventPowerOn := fun _ => false
  wantShutdown := false
  powerButtonPressed := true

/-- All blocking signal waits fail (power good never asserts). -/
def envFail : Env where
  signals := fun _ => 63
  wait := fun _ _ => none
  preventPowerOn := fun _ => false
  wantShutdown := false
  powerButtonPressed := false

/-- The charger gate forbids power-on on every query. -/
def envPrevent : Env where
  signals := fun _ => 63
  wait := fun _ _ => some 0
  preventPowerOn := fun _ => true
  wantShutdown := false
  powerButtonPressed := false

/-- Battery level asks for shutdown. -/
def envWantShutdown : Env :=
  { envOk with wantShutdown := true }

/-- The round trip of C8: long-press forced shutdown out of S0 down to
G3, then power-on back up to S0.  Between consecutive `handleState`
events the machine is in, successively: S0, S0→S3, S3, S3→S5, S5,
S5→G3, G3, G3→S5, S5, S5→S3, S3, S3→S0, S0. -/
def cycleEvents : List DriveEvent :=
  [.buttonForceShutdown, .handleState, .handleState, .handleState,
   .handleState, .handleState, .handleState, .powerOnToG3S5,
   .handleState, .handleState, .handleState, .handleState, .handleState]

/-! ## Helper lemmas -/

/-- A sequence run that did not abort performs exactly the table's
writes, in order. -/
theorem power_seq_run_completed (env : Env) (fs chk : Bool) :
    ∀ (ops : List power_seq_op) (t : Nat),
      (power_seq_run env fs chk ops t).2.2 = false →
      (power_seq_run env fs chk ops t).2.1 = seqWrites ops := by
  intro ops
  induction ops with
  | nil => intro t _; rfl
  | cons op rest ih =>
    intro t hab
    by_cases hd : op.delay = 0
    · simp only [power_seq_run, if_pos hd] at hab ⊢
      simp only [seqWrites, List.map_cons]
      exact congrArg _ (ih t hab)
    · by_cases hc : chk = true
      · by_cases hm :
            (MSLEEP_CHECK_ABORTED_SUSPEND env fs t op.delay).2 = true
        · simp only [power_seq_run, if_neg hd, if_pos hc, if_pos hm] at hab
          exact absurd hab (by simp)
        · simp only [power_seq_run, if_neg hd, if_pos hc, if_neg hm]
            at hab ⊢
          simp only [seqWrites, List.map_cons]
          exact congrArg _ (ih _ hab)
      · simp only [power_seq_run, if_neg hd, if_neg hc] at hab ⊢
        simp only [seqWrites, List.map_cons]
        exact congrArg _ (ih _ hab)

/-- No deferred-action call ever appears among a table's writes. -/
theorem hookCallDeferred_not_in_seqWrites (d : Int)
    (ops : List power_seq_op) : Effect.hookCallDeferred d ∉ seqWrites ops := by
  simp only [seqWrites, List.mem_map]
  rintro ⟨op, -, h⟩
  exact Effect.noConfusion h

/-- Behaviour of one abort-checking sleep when the run signal is up
from instant `tA` on: either it reports the abort, or it slept the full
delay and even its last check instant `t + remain` precedes `tA`. -/
theorem msleep_go_spec (env : Env) (tA : Nat)
    (hmono : ∀ u, tA ≤ u → env.signals u &&& IN_SUSPEND_DEASSERTED ≠ 0) :
    ∀ (fuel t remain : Nat), remain < fuel →
      (msleep_check_go env false fuel t remain).2 = true ∨
      (msleep_check_go env false fuel t remain = (t + remain, false) ∧
        t + remain < tA) := by
  intro fuel
  induction fuel with
  | zero => intro t remain h; omega
  | succ n ih =>
    intro t remain hlt
    have hS : SLEEP_INTERVAL_MS = 5 := rfl
    by_cases hb :
        env.signals (t + min remain SLEEP_INTERVAL_MS) &&&
          IN_SUSPEND_DEASSERTED ≠ 0
    · left
      simp only [msleep_check_go]
      rw [if_pos ⟨trivial, hb⟩]
    · have htA : t + min remain SLEEP_INTERVAL_MS < tA := by
        by_contra hc
        push_neg at hc
        exact hb (hmono _ hc)
      have hcond : ¬(True ∧
          env.signals (t + min remain SLEEP_INTERVAL_MS) &&&
            IN_SUSPEND_DEASSERTED ≠ 0) := fun h => hb h.2
      by_cases h5 : SLEEP_INTERVAL_MS < remain
      · have hmin : min remain SLEEP_INTERVAL_MS = SLEEP_INTERVAL_MS :=
          Nat.min_eq_right (Nat.le_of_lt h5)
        rcases ih (t + SLEEP_INTERVAL_MS) (remain - SLEEP_INTERVAL_MS)
            (by omega) with h1 | ⟨h2, h3⟩
        · left
          simp only [msleep_check_go]
          rw [if_neg hcond, if_pos h5, hmin]
          exact h1
        · right
          refine ⟨?_, by omega⟩
          simp only [msleep_check_go]
          rw [if_neg hcond, if_pos h5, hmin, h2]
          have harith : t + SLEEP_INTERVAL_MS +
              (remain - SLEEP_INTERVAL_MS) = t + remain := by omega
          rw [harith]
      · have hmin : min remain SLEEP_INTERVAL_MS = remain :=
          Nat.min_eq_left (by omega)
        right
        rw [hmin] at htA
        refine ⟨?_, htA⟩
        simp only [msleep_check_go]
        rw [if_neg hcond, if_neg h5, hmin]

/-- Behaviour of an abort-checking run of a table when the run signal is
up from instant `tA` on: either it aborts having written a prefix of the
table, or it completed, slept the whole delay budget, and (when the
table has any delay at all, so at least one check happened) even its
last check instant `t + delaySum ops` precedes `tA`. -/
theorem seq_run_spec (env : Env) (tA : Nat)
    (hmono : ∀ u, tA ≤ u → env.signals u &&& IN_SUSPEND_DEASSERTED ≠ 0) :
    ∀ (ops : List power_seq_op) (t : Nat),
      ((power_seq_run env false true ops t).2.2 = true ∧
        ∃ k, k ≤ ops.length ∧
          (power_seq_run env false true ops t).2.1 =
            seqWrites (ops.take k)) ∨
      ((power_seq_run env false true ops t).2.2 = false ∧
        (power_seq_run env false true ops t).2.1 = seqWrites ops ∧
        (power_seq_run env false true ops t).1 = t + delaySum ops ∧
        (0 < delaySum ops → t + delaySum ops < tA)) := by
  intro ops
  induction ops with
  | nil =>
    intro t
    right
    exact ⟨rfl, rfl, by simp [power_seq_run, delaySum], by simp [delaySum]⟩
  | cons op rest ih =>
    intro t
    by_cases hd : op.delay = 0
    · have hstep : power_seq_run env false true (op :: rest) t =
          ((power_seq_run env false true rest t).1,
            Effect.gpioSet op.signal op.level ::
              (power_seq_run env false true rest t).2.1,
            (power_seq_run env false true rest t).2.2) := by
        simp [power_seq_run, hd]
      rcases ih t with ⟨hab, k, hk, htr⟩ | ⟨hab, htr, htime, hlast⟩
      · left
        rw [hstep]
        refine ⟨hab, k + 1, by simp; omega, ?_⟩
        simp only [List.take_succ_cons, seqWrites, List.map_cons]
        exact congrArg _ htr
      · right
        rw [hstep]
        refine ⟨hab, ?_, ?_, ?_⟩
        · simp only [seqWrites, List.map_cons]
          exact congrArg _ htr
        · simp only [delaySum, hd, htime, Nat.zero_add]
        · intro hpos
          simp only [delaySum, hd, Nat.zero_add] at hpos ⊢
          exact hlast hpos
    · rcases msleep_go_spec env tA hmono (op.delay + 1) t op.delay
          (Nat.lt_succ_self _) with habort | ⟨heq, hlt⟩
      · have hstep : power_seq_run env false true (op :: rest) t =
            ((msleep_check_go env false (op.delay + 1) t op.delay).1,
              [Effect.gpioSet op.signal op.level], true) := by
          simp [power_seq_run, hd, MSLEEP_CHECK_ABORTED_SUSPEND, habort]
        left
        rw [hstep]
        exact ⟨rfl, 1, by simp, by simp [seqWrites]⟩
      · have hstep : power_seq_run env false true (op :: rest) t =
            ((power_seq_run env false true rest (t + op.delay)).1,
              Effect.gpioSet op.signal op.level ::
                (power_seq_run env false true rest (t + op.delay)).2.1,
              (power_seq_run env false true rest (t + op.delay)).2.2) := by
          simp [power_seq_run, hd, MSLEEP_CHECK_ABORTED_SUSPEND, heq]
        rcases ih (t + op.delay) with ⟨hab, k, hk, htr⟩ |
            ⟨hab, htr, htime, hlast⟩
        · left
          rw [hstep]
          refine ⟨hab, k + 1, by simp; omega, ?_⟩
          simp only [List.take_succ_cons, seqWrites, List.map_cons]
          exact congrArg _ htr
        · right
          rw [hstep]
          refine ⟨hab, ?_, ?_, ?_⟩
          · simp only [seqWrites, List.map_cons]
            exact congrArg _ htr
          · simp only [delaySum, htime]
            omega
          · intro hpos
            simp only [delaySum] at hpos ⊢
            rcases Nat.eq_zero_or_pos (delaySum rest) with hz | hpos2
            · omega
            · have := hlast hpos2
              omega

/-- Every build's S0→S3 table carries 43 ms of per-step delay. -/
theorem s0s3_delaySum (v : Nat) : delaySum (s0s3_power_seq v) = 43 := by
  unfold s0s3_power_seq
  split <;> rfl

/-! ## Claims -/

/-- C1: in every steady state (S5, S3, S0), a set `forcing_shutdown`
makes `power_handle_state` return the transient toward G3 (S5→G3,
S3→S5, S0→S3 respectively), never a state toward S0. -/
theorem claim_C1_forcing_shutdown_heads_to_G3 (v : Nat) (env : Env)
    (ctx : Ctx) (t : Nat) (h : ctx.forcing_shutdown = true) :
    (power_handle_state v env .POWER_S5 ctx t).next = .POWER_S5G3 ∧
    (power_handle_state v env .POWER_S3 ctx t).next = .POWER_S3S5 ∧
    (power_handle_state v env .POWER_S0 ctx t).next = .POWER_S0S3 := by
  refine ⟨?_, ?_, ?_⟩ <;> simp [power_handle_state, h]

theorem claim_C1_witness :
    (power_handle_state 0 envOk .POWER_S5 ⟨true, false⟩ 0).next =
      .POWER_S5G3 ∧
    (power_handle_state 0 envOk .POWER_S3 ⟨true, false⟩ 0).next =
      .POWER_S3S5 ∧
    (power_handle_state 0 envOk .POWER_S0 ⟨true, false⟩ 0).next =
      .POWER_S0S3 :=
  claim_C1_forcing_shutdown_heads_to_G3 0 envOk ⟨true, false⟩ 0 rfl

/-- C3: a completed run of the sequence executor emits exactly the
table's (rail, level) writes in the table's literal order, whatever the
per-step delays are. -/
theorem claim_C3_order_preserved (env : Env) (fs chk : Bool)
    (ops : List power_seq_op) (t : Nat)
    (h : (power_seq_run env fs chk ops t).2.2 = false) :
    (power_seq_run env fs chk ops t).2.1 = seqWrites ops :=
  power_seq_run_completed env fs chk ops t h

theorem claim_C3_witness :
    (power_seq_run envOk false false (s3s5_power_seq 2) 0).2.1 =
      seqWrites (s3s5_power_seq 2) :=
  claim_C3_order_preserved envOk false false (s3s5_power_seq 2) 0 (by decide)

/-- C6 fails on the code: when the S0→S3 teardown completes with the
power button latched, the handler does not arm the shutdown deferred
action with zero delay — it calls `hook_call_deferred` with the sentinel
delay -1 (a cancel).  Witnessed at version 2, `c6Env` (button held, run
signal never reasserting), time 0. -/
theorem claim_C6_counterexample :
    ¬ (∀ (v : Nat) (env : Env) (ctx : Ctx) (t : Nat),
        env.powerButtonPressed = true →
        (power_handle_state v env .POWER_S0S3 ctx t).next = .POWER_S3 →
        Effect.hookCallDeferred 0 ∈
          (power_handle_state v env .POWER_S0S3 ctx t).trace) := by
  intro h
  exact absurd (h 2 c6Env ⟨false, false⟩ 0 rfl (by decide)) (by decide)

/-- C6 (amended): when the S0→S3 transition completes its teardown (is
not aborted) and a power button press is currently latched, the machine
sets `forcing_shutdown` directly and cancels the pending shutdown
deferred action (arming it with the sentinel delay -1, not 0) before
resolving to S3. -/
theorem claim_C6_amended_button_on_suspend_completion (v : Nat)
    (env : Env) (ctx : Ctx) (t : Nat)
    (hbtn : env.powerButtonPressed = true)
    (hdone : (power_handle_state v env .POWER_S0S3 ctx t).next = .POWER_S3) :
    (power_handle_state v env .POWER_S0S3 ctx t).ctx.forcing_shutdown =
      true ∧
    (power_handle_state v env .POWER_S0S3 ctx t).trace =
      Effect.hookNotify .chipsetSuspend ::
        (seqWrites (s0s3_power_seq v) ++
          [Effect.enableSleep, Effect.hookCallDeferred (-1)]) ∧
    Effect.hookCallDeferred 0 ∉
      (power_handle_state v env .POWER_S0S3 ctx t).trace := by
  by_cases hm :
      (MSLEEP_CHECK_ABORTED_SUSPEND env ctx.forcing_shutdown t 20).2 = true
  · simp only [power_handle_state, if_pos hm] at hdone
    exact PowerState.noConfusion hdone
  · by_cases hr :
        (power_seq_run env ctx.forcing_shutdown true (s0s3_power_seq v)
          (MSLEEP_CHECK_ABORTED_SUSPEND env ctx.forcing_shutdown t 20).1).2.2
          = true
    · simp only [power_handle_state, if_neg hm, if_pos hr] at hdone
      exact PowerState.noConfusion hdone
    · have hwrites := power_seq_run_completed env ctx.forcing_shutdown true
        (s0s3_power_seq v)
        (MSLEEP_CHECK_ABORTED_SUSPEND env ctx.forcing_shutdown t 20).1
        (by simpa using hr)
      refine ⟨?_, ?_, ?_⟩ <;>
        simp only [power_handle_state, if_neg hm, if_neg hr, if_pos hbtn,
          hwrites]
      · simp
      · intro hmem
        rcases List.mem_cons.mp hmem with h | h
        · exact Effect.noConfusion h
        rcases List.mem_append.mp h with h2 | h2
        · exact hookCallDeferred_not_in_seqWrites 0 _ h2
        · exact absurd h2 (by decide)

theorem claim_C6_amended_witness :
    (power_handle_state 2 c6Env .POWER_S0S3 ⟨false, false⟩ 0).ctx.forcing_shutdown
      = true ∧
    (power_handle_state 2 c6Env .POWER_S0S3 ⟨false, false⟩ 0).trace =
      Effect.hookNotify .chipsetSuspend ::
        (seqWrites (s0s3_power_seq 2) ++
          [Effect.enableSleep, Effect.hookCallDeferred (-1)]) ∧
    Effect.hookCallDeferred 0 ∉
      (power_handle_state 2 c6Env .POWER_S0S3 ⟨false, false⟩ 0).trace :=
  claim_C6_amended_button_on_suspend_completion 2 c6Env ⟨false, false⟩ 0 rfl
    (by decide)

/-- C7 fails on the code: it is not true that every transient state
resolves to the next state without ever re-entering itself — in S3→S0,
when the S0 power-good wait fails, the handler forces shutdown and
returns S3→S0 again (witnessed with `envFail`, whose blocking waits all
fail). -/
theorem claim_C7_counterexample :
    ¬ (∀ (v : Nat) (env : Env) (s : PowerState) (ctx : Ctx) (t : Nat),
        isTransient s = true →
        (power_handle_state v env s ctx t).next ≠ s) := by
  intro h
  exact absurd
    (by decide :
      (power_handle_state 0 envFail .POWER_S3S0 ⟨false, false⟩ 0).next =
        .POWER_S3S0)
    (h 0 envFail .POWER_S3S0 ⟨false, false⟩ 0 rfl)

/-- C7 (amended): every transient state resolves in a single invocation
with no internal sub-looping, to one of at most two successor states;
no transient re-enters itself except S3→S0, which returns itself when
the S0 power-good wait fails (and S0→S3 aborts to S3→S0 rather than
S3). -/
theorem claim_C7_amended_transient_resolution (v : Nat) (env : Env)
    (ctx : Ctx) (t : Nat) :
    ((power_handle_state v env .POWER_G3S5 ctx t).next = .POWER_S5 ∨
      (power_handle_state v env .POWER_G3S5 ctx t).next = .POWER_G3) ∧
    ((power_handle_state v env .POWER_S5S3 ctx t).next = .POWER_S3 ∨
      (power_handle_state v env .POWER_S5S3 ctx t).next = .POWER_S3S5) ∧
    ((power_handle_state v env .POWER_S3S0 ctx t).next = .POWER_S0 ∨
      (power_handle_state v env .POWER_S3S0 ctx t).next = .POWER_S3S0) ∧
    ((power_handle_state v env .POWER_S0S3 ctx t).next = .POWER_S3 ∨
      (power_handle_state v env .POWER_S0S3 ctx t).next = .POWER_S3S0) ∧
    (power_handle_state v env .POWER_S3S5 ctx t).next = .POWER_S5 ∧
    (power_handle_state v env .POWER_S5G3 ctx t).next = .POWER_G3 := by
  refine ⟨?_, ?_, ?_, ?_, ?_, ?_⟩ <;>
    simp only [power_handle_state] <;> split_ifs <;> simp

/-- C8: driving the machine around the full long-press shutdown /
power-on cycle S0 → S3 → S5 → G3 → S5 → S3 → S0 on a healthy platform
(`envOk`) ends in S0 with both mutable flags back at their initial
values, for every build configuration. -/
theorem claim_C8_round_trip (v : Nat) (hv : v = 0 ∨ v = 1 ∨ v = 2) :
    (drive v envOk cycleEvents (.POWER_S0, ⟨false, false⟩, 0)).1 =
      .POWER_S0 ∧
    (drive v envOk cycleEvents (.POWER_S0, ⟨false, false⟩, 0)).2.1 =
      ⟨false, false⟩ := by
  rcases hv with h | h | h <;> subst h <;> exact ⟨by decide, by decide⟩

/-- If the charger gate prevents power-on on every query of the retry
budget, the loop runs all 40 sleeps and exits with `tries = 41`. -/
theorem charger_wait_all_prevent (env : Env)
    (h : ∀ n, n ≤ CHARGER_INITIALIZED_TRIES → env.preventPowerOn n = true) :
    ∀ (fuel tries t : Nat),
      tries + fuel = CHARGER_INITIALIZED_TRIES + 1 →
      charger_wait_go env fuel t tries =
        (t + (CHARGER_INITIALIZED_TRIES - tries) *
            CHARGER_INITIALIZED_DELAY_MS,
         CHARGER_INITIALIZED_TRIES + 1) := by
  intro fuel
  induction fuel with
  | zero =>
    intro tries t hsum
    have ht : tries = CHARGER_INITIALIZED_TRIES + 1 := by omega
    simp only [charger_wait_go, ht, CHARGER_INITIALIZED_TRIES]
    simp
  | succ n ih =>
    intro tries t hsum
    have hp : env.preventPowerOn tries = true := h tries (by
      simp only [CHARGER_INITIALIZED_TRIES] at hsum ⊢; omega)
    simp only [charger_wait_go, if_pos hp]
    by_cases hlt : tries < CHARGER_INITIALIZED_TRIES
    · rw [if_pos hlt, ih (tries + 1) (t + CHARGER_INITIALIZED_DELAY_MS)
        (by omega)]
      have harith :
          t + CHARGER_INITIALIZED_DELAY_MS +
            (CHARGER_INITIALIZED_TRIES - (tries + 1)) *
              CHARGER_INITIALIZED_DELAY_MS =
          t + (CHARGER_INITIALIZED_TRIES - tries) *
            CHARGER_INITIALIZED_DELAY_MS := by
        simp only [CHARGER_INITIALIZED_TRIES, CHARGER_INITIALIZED_DELAY_MS]
          at hlt ⊢
        omega
      rw [harith]
    · have ht : tries = CHARGER_INITIALIZED_TRIES := by omega
      rw [if_neg hlt]
      simp [ht]

/-- If some query within the retry budget reports the charger ready, the
loop exits with `tries` within the budget. -/
theorem charger_wait_first_ok (env : Env) :
    ∀ (fuel tries t : Nat),
      (∃ n, tries ≤ n ∧ n ≤ CHARGER_INITIALIZED_TRIES ∧
        env.preventPowerOn n = false) →
      CHARGER_INITIALIZED_TRIES + 1 ≤ tries + fuel →
      (charger_wait_go env fuel t tries).2 ≤ CHARGER_INITIALIZED_TRIES := by
  intro fuel
  induction fuel with
  | zero =>
    rintro tries t ⟨n, h1, h2, -⟩ hfu
    omega
  | succ k ih =>
    rintro tries t ⟨n, h1, h2, h3⟩ hfu
    by_cases hp : env.preventPowerOn tries = true
    · have hne : tries ≠ n := fun he => by rw [he, h3] at hp; cases hp
      simp only [charger_wait_go, if_pos hp]
      by_cases hlt : tries < CHARGER_INITIALIZED_TRIES
      · rw [if_pos hlt]
        exact ih (tries + 1) (t + CHARGER_INITIALIZED_DELAY_MS)
          ⟨n, by omega, h2, h3⟩ (by omega)
      · omega
    · have hp2 : env.preventPowerOn tries = false := by
        cases hq : env.preventPowerOn tries
        · rfl
        · exact absurd hq hp
      simp only [charger_wait_go, if_neg hp]
      omega

/-- C4: in G3→S5 the handler first clears `forcing_shutdown`, then
polls the charger gate for at most 40 tries of 100 ms each; if the gate
prevents power-on for more than the whole budget it resolves to G3
after exactly 40 sleeps with `forcing_shutdown` set (likewise when the
battery wants shutdown); if the gate reports ready within the budget
and the battery does not want shutdown, it resolves to S5 with
`forcing_shutdown` clear. -/
theorem claim_C4_charger_gate (v : Nat) (env : Env) (ctx : Ctx) (t : Nat) :
    ((∀ n, n ≤ CHARGER_INITIALIZED_TRIES → env.preventPowerOn n = true) →
      power_handle_state v env .POWER_G3S5 ctx t =
        ⟨.POWER_G3, ⟨true, ctx.sys_reset_asserted⟩,
          t + CHARGER_INITIALIZED_TRIES * CHARGER_INITIALIZED_DELAY_MS,
          [Effect.taskWake]⟩) ∧
    (env.wantShutdown = true →
      (power_handle_state v env .POWER_G3S5 ctx t).next = .POWER_G3 ∧
      (power_handle_state v env .POWER_G3S5 ctx t).ctx.forcing_shutdown =
        true) ∧
    (env.wantShutdown = false →
      (∃ n, n ≤ CHARGER_INITIALIZED_TRIES ∧ env.preventPowerOn n = false) →
      (power_handle_state v env .POWER_G3S5 ctx t).next = .POWER_S5 ∧
      (power_handle_state v env .POWER_G3S5 ctx t).ctx.forcing_shutdown =
        false) := by
  refine ⟨?_, ?_, ?_⟩
  · intro hall
    have hc := charger_wait_all_prevent env hall
      (CHARGER_INITIALIZED_TRIES + 1) 0 t (by omega)
    simp only [power_handle_state, hc, chipset_force_shutdown]
    rw [if_pos (Or.inr (by omega))]
    simp
  · intro hws
    simp only [power_handle_state, chipset_force_shutdown]
    rw [if_pos (Or.inl hws)]
    exact ⟨rfl, rfl⟩
  · rintro hws ⟨n, hn, hfalse⟩
    have hc := charger_wait_first_ok env (CHARGER_INITIALIZED_TRIES + 1) 0 t
      ⟨n, Nat.zero_le n, hn, hfalse⟩ (by omega)
    simp only [power_handle_state]
    rw [if_neg (by
      rintro (h | h)
      · rw [hws] at h; cases h
      · omega)]
    exact ⟨rfl, rfl⟩

theorem claim_C4_witness :
    (power_handle_state 0 envPrevent .POWER_G3S5 ⟨false, false⟩ 0 =
      ⟨.POWER_G3, ⟨true, false⟩, 4000, [Effect.taskWake]⟩) ∧
    ((power_handle_state 0 envWantShutdown .POWER_G3S5 ⟨false, false⟩ 0).next
        = .POWER_G3 ∧
      (power_handle_state 0 envWantShutdown .POWER_G3S5
          ⟨false, false⟩ 0).ctx.forcing_shutdown = true) ∧
    ((power_handle_state 0 envOk .POWER_G3S5 ⟨true, true⟩ 5).next =
        .POWER_S5 ∧
      (power_handle_state 0 envOk .POWER_G3S5
          ⟨true, true⟩ 5).ctx.forcing_shutdown = false) :=
  ⟨(claim_C4_charger_gate 0 envPrevent ⟨false, false⟩ 0).1 (fun n _ => rfl),
   (claim_C4_charger_gate 0 envWantShutdown ⟨false, false⟩ 0).2.1 rfl,
   (claim_C4_charger_gate 0 envOk ⟨true, true⟩ 5).2.2 rfl
     ⟨0, by omega, rfl⟩⟩

/-- C5: in S0 with none of the immediate exit conditions holding (S3
power-good present, `forcing_shutdown` clear, run signal asserted), a
non-version-2 build waits up to 100 ms for the AP/SYS power-good
signals; on timeout it returns S0→S3; otherwise it re-checks all exit
conditions at the post-wait instant, returning S0→S3 if any holds and
staying in S0 (context unchanged) if none does. -/
theorem claim_C5_s0_debounce (v : Nat) (env : Env) (ctx : Ctx) (t : Nat)
    (hv : v ≠ 2)
    (hp : power_has_signals env (IN_PGOOD_S3 v) t = true)
    (hfs : ctx.forcing_shutdown = false)
    (hrun : env.signals t &&& IN_SUSPEND_DEASSERTED ≠ 0) :
    (power_wait_signals_timeout env (IN_PGOOD_AP ||| IN_PGOOD_SYS) t
        PGOOD_AP_DEBOUNCE_TIMEOUT_MS).1 ≤ t + PGOOD_AP_DEBOUNCE_TIMEOUT_MS ∧
    ((power_wait_signals_timeout env (IN_PGOOD_AP ||| IN_PGOOD_SYS) t
        PGOOD_AP_DEBOUNCE_TIMEOUT_MS).2 = false →
      power_handle_state v env .POWER_S0 ctx t =
        ⟨.POWER_S0S3, ctx,
          (power_wait_signals_timeout env (IN_PGOOD_AP ||| IN_PGOOD_SYS) t
            PGOOD_AP_DEBOUNCE_TIMEOUT_MS).1, []⟩) ∧
    ((power_wait_signals_timeout env (IN_PGOOD_AP ||| IN_PGOOD_SYS) t
        PGOOD_AP_DEBOUNCE_TIMEOUT_MS).2 = true →
      ((power_has_signals env (IN_PGOOD_S3 v)
            (power_wait_signals_timeout env (IN_PGOOD_AP ||| IN_PGOOD_SYS) t
              PGOOD_AP_DEBOUNCE_TIMEOUT_MS).1 = false ∨
        ctx.forcing_shutdown = true ∨
        env.signals
            (power_wait_signals_timeout env (IN_PGOOD_AP ||| IN_PGOOD_SYS) t
              PGOOD_AP_DEBOUNCE_TIMEOUT_MS).1 &&&
          IN_SUSPEND_DEASSERTED = 0) →
        power_handle_state v env .POWER_S0 ctx t =
          ⟨.POWER_S0S3, ctx,
            (power_wait_signals_timeout env (IN_PGOOD_AP ||| IN_PGOOD_SYS) t
              PGOOD_AP_DEBOUNCE_TIMEOUT_MS).1, []⟩) ∧
      ((power_has_signals env (IN_PGOOD_S3 v)
            (power_wait_signals_timeout env (IN_PGOOD_AP ||| IN_PGOOD_SYS) t
              PGOOD_AP_DEBOUNCE_TIMEOUT_MS).1 = true ∧
        env.signals
            (power_wait_signals_timeout env (IN_PGOOD_AP ||| IN_PGOOD_SYS) t
              PGOOD_AP_DEBOUNCE_TIMEOUT_MS).1 &&&
          IN_SUSPEND_DEASSERTED ≠ 0) →
        power_handle_state v env .POWER_S0 ctx t =
          ⟨.POWER_S0, ctx,
            (power_wait_signals_timeout env (IN_PGOOD_AP ||| IN_PGOOD_SYS) t
              PGOOD_AP_DEBOUNCE_TIMEOUT_MS).1, []⟩)) := by
  have hfirst : ¬(power_has_signals env (IN_PGOOD_S3 v) t = false ∨
      ctx.forcing_shutdown = true ∨
      env.signals t &&& IN_SUSPEND_DEASSERTED = 0) := by
    rintro (h | h | h)
    · rw [hp] at h; cases h
    · rw [hfs] at h; cases h
    · exact hrun h
  refine ⟨?_, ?_, ?_⟩
  · rcases hw : env.wait (IN_PGOOD_AP ||| IN_PGOOD_SYS) t with - | e <;>
      simp only [power_wait_signals_timeout, hw]
    · simp
    · split_ifs with he
      · dsimp only
        omega
      · dsimp only
        omega
  · intro hto
    simp only [power_handle_state, if_neg hfirst, if_pos hv, if_pos hto]
  · intro hok
    have hnotto :
        ¬(power_wait_signals_timeout env (IN_PGOOD_AP ||| IN_PGOOD_SYS) t
          PGOOD_AP_DEBOUNCE_TIMEOUT_MS).2 = false := by
      rw [hok]; exact fun h => Bool.noConfusion h
    constructor
    · intro hhold
      simp only [power_handle_state, if_neg hfirst, if_pos hv,
        if_neg hnotto, if_pos hhold]
    · rintro ⟨hp2, hrun2⟩
      have hnohold : ¬(power_has_signals env (IN_PGOOD_S3 v)
            (power_wait_signals_timeout env (IN_PGOOD_AP ||| IN_PGOOD_SYS) t
              PGOOD_AP_DEBOUNCE_TIMEOUT_MS).1 = false ∨
          ctx.forcing_shutdown = true ∨
          env.signals
              (power_wait_signals_timeout env (IN_PGOOD_AP ||| IN_PGOOD_SYS)
                t PGOOD_AP_DEBOUNCE_TIMEOUT_MS).1 &&&
            IN_SUSPEND_DEASSERTED = 0) := by
        rintro (h | h | h)
        · rw [hp2] at h; cases h
        · rw [hfs] at h; cases h
        · exact hrun2 h
      simp only [power_handle_state, if_neg hfirst, if_pos hv,
        if_neg hnotto, if_neg hnohold]

theorem claim_C5_witness :
    power_handle_state 0 envOk .POWER_S0 ⟨false, false⟩ 0 =
      ⟨.POWER_S0, ⟨false, false⟩, 0, []⟩ :=
  ((claim_C5_s0_debounce 0 envOk ⟨false, false⟩ 0 (by decide) (by decide)
      rfl (by decide)).2.2 (by decide)).2 ⟨by decide, by decide⟩

/-- C2: during S0→S3 sequencing with `forcing_shutdown` clear, a run
signal that reasserts (at `tA`, within the sequencing window, staying
asserted) makes the executor abort: the handler resolves to S3→S0 and
the emitted rail writes are a prefix of the table, nothing past the
detection point.  In particular (version 2, `c2Env`: reassert at 26 ms,
during the delay after the second of the five steps) exactly two rail
writes happen before the abort. -/
theorem claim_C2_suspend_abort (v : Nat) (env : Env) (ctx : Ctx)
    (t tA : Nat)
    (hfs : ctx.forcing_shutdown = false)
    (hmono : ∀ u, tA ≤ u → env.signals u &&& IN_SUSPEND_DEASSERTED ≠ 0)
    (hA : tA ≤ t + 20 + delaySum (s0s3_power_seq v)) :
    ((power_handle_state v env .POWER_S0S3 ctx t).next = .POWER_S3S0 ∧
      ∃ k, k ≤ (s0s3_power_seq v).length ∧
        (power_handle_state v env .POWER_S0S3 ctx t).trace =
          Effect.hookNotify .chipsetSuspend ::
            seqWrites ((s0s3_power_seq v).take k)) ∧
    power_handle_state 2 c2Env .POWER_S0S3 ⟨false, false⟩ 0 =
      ⟨.POWER_S3S0, ⟨false, false⟩, 26,
        [Effect.hookNotify .chipsetSuspend,
         Effect.gpioSet .PP1800_S0_EN false,
         Effect.gpioSet .AP_CORE_EN false]⟩ := by
  constructor
  · rcases msleep_go_spec env tA hmono 21 t 20 (by omega) with
      habort | ⟨heq, hlt⟩
    · have hstep : power_handle_state v env .POWER_S0S3 ctx t =
          ⟨.POWER_S3S0, ctx, (msleep_check_go env false 21 t 20).1,
            [Effect.hookNotify .chipsetSuspend]⟩ := by
        simp [power_handle_state, MSLEEP_CHECK_ABORTED_SUSPEND, hfs, habort]
      rw [hstep]
      exact ⟨rfl, 0, Nat.zero_le _, by simp [seqWrites]⟩
    · rcases seq_run_spec env tA hmono (s0s3_power_seq v) (t + 20) with
        ⟨hab, k, hk, htr⟩ | ⟨hab, htr, htime, hlast⟩
      · have hstep : power_handle_state v env .POWER_S0S3 ctx t =
            ⟨.POWER_S3S0, ctx,
              (power_seq_run env false true (s0s3_power_seq v) (t + 20)).1,
              Effect.hookNotify .chipsetSuspend ::
                (power_seq_run env false true (s0s3_power_seq v)
                  (t + 20)).2.1⟩ := by
          simp [power_handle_state, MSLEEP_CHECK_ABORTED_SUSPEND, hfs, heq,
            hab]
        rw [hstep]
        exact ⟨rfl, k, hk, by simp [htr]⟩
      · exfalso
        have h43 : delaySum (s0s3_power_seq v) = 43 := s0s3_delaySum v
        have hcontra := hlast (by rw [h43]; omega)
        rw [h43] at hcontra hA
        omega
  · decide

theorem claim_C2_witness :
    (power_handle_state 2 c2Env .POWER_S0S3 ⟨false, false⟩ 0).next =
      .POWER_S3S0 ∧
    ∃ k, k ≤ (s0s3_power_seq 2).length ∧
      (power_handle_state 2 c2Env .POWER_S0S3 ⟨false, false⟩ 0).trace =
        Effect.hookNotify .chipsetSuspend ::
          seqWrites ((s0s3_power_seq 2).take k) :=
  (claim_C2_suspend_abort 2 c2Env ⟨false, false⟩ 0 26 rfl
    (by
      intro u hu
      simp only [c2Env, if_pos hu]
      decide)
    (by decide)).1

/-- C9: `forcing_shutdown` persists — every invocation of
`power_handle_state` on a state other than G3→S5 keeps the flag set
once it is set, and both shutdown entry points (`chipset_force_shutdown`
and the deferred `force_shutdown`) set it. -/
theorem claim_C9_forcing_shutdown_persists :
    (∀ (v : Nat) (env : Env) (s : PowerState) (ctx : Ctx) (t : Nat),
        s ≠ .POWER_G3S5 → ctx.forcing_shutdown = true →
        (power_handle_state v env s ctx t).ctx.forcing_shutdown = true) ∧
    (∀ ctx : Ctx,
        (chipset_force_shutdown ctx).1.forcing_shutdown = true ∧
        (force_shutdown ctx).1.forcing_shutdown = true) := by
  constructor
  · intro v env s ctx t hne h
    cases s <;>
      simp only [power_handle_state, chipset_force_shutdown] <;>
      (try split_ifs) <;> simp_all
  · intro ctx
    exact ⟨rfl, rfl⟩

theorem claim_C9_witness :
    (power_handle_state 0 envOk .POWER_S3 ⟨true, false⟩ 0).ctx.forcing_shutdown
      = true :=
  claim_C9_forcing_shutdown_persists.1 0 envOk .POWER_S3 ⟨true, false⟩ 0
    (by decide) rfl

/-- C10: the sys-reset flag starts false at boot, is set only by the
S5→S3 case, and the invariant "in S0 the flag is false" is preserved by
every invocation (every path returning S0 either keeps a false flag or
clears it before the power-good wait in S3→S0). -/
theorem claim_C10_sys_reset_invariant :
    (∀ (v : Nat) (env : Env) (b : BootEnv),
        (power_chipset_init v env b).2.sys_reset_asserted = false) ∧
    (∀ (v : Nat) (env : Env) (s : PowerState) (ctx : Ctx) (t : Nat),
        s ≠ .POWER_S5S3 → ctx.sys_reset_asserted = false →
        (power_handle_state v env s ctx t).ctx.sys_reset_asserted = false) ∧
    (∀ (v : Nat) (env : Env) (s : PowerState) (ctx : Ctx) (t : Nat),
        (s = .POWER_S0 → ctx.sys_reset_asserted = false) →
        (power_handle_state v env s ctx t).next = .POWER_S0 →
        (power_handle_state v env s ctx t).ctx.sys_reset_asserted = false) := by
  refine ⟨?_, ?_, ?_⟩
  · intro v env b
    simp only [power_chipset_init]
    split_ifs <;> rfl
  · intro v env s ctx t hne h
    cases s <;>
      simp only [power_handle_state, chipset_force_shutdown] <;>
      (try split_ifs) <;> simp_all
  · intro v env s ctx t hinv hnext
    cases s <;>
      simp only [power_handle_state, chipset_force_shutdown] at hnext ⊢ <;>
      (try split_ifs at hnext ⊢) <;> simp_all

theorem claim_C10_witness :
    (power_handle_state 0 envOk .POWER_S3 ⟨false, false⟩ 0).ctx.sys_reset_asserted
      = false ∧
    (power_handle_state 0 envOk .POWER_S3S0 ⟨false, true⟩ 0).ctx.sys_reset_asserted
      = false :=
  ⟨claim_C10_sys_reset_invariant.2.1 0 envOk .POWER_S3 ⟨false, false⟩ 0
      (by decide) rfl,
   claim_C10_sys_reset_invariant.2.2 0 envOk .POWER_S3S0 ⟨false, true⟩ 0
      (by decide) (by decide)⟩

theorem claim_C8_witness :
    (drive 2 envOk cycleEvents (.POWER_S0, ⟨false, false⟩, 0)).1 =
      .POWER_S0 ∧
    (drive 2 envOk cycleEvents (.POWER_S0, ⟨false, false⟩, 0)).2.1 =
      ⟨false, false⟩ :=
  claim_C8_round_trip 2 (Or.inr (Or.inr rfl))

end RK3399
